import Mathlib

/-!
Shallow embedding of the BME688 raw-data streaming firmware
(`raw_data` single-sensor variant and `raw_data_mul` multi-sensor variant):
the serial configuration handshake in `setup()`, the polling/emission
logic in `loop()`, and the fail-stop health check `checkSensorStatus()`.

Serial input is modelled as a list of logical lines, one line consumed per
blocking read (the lock-step handshake: the host sends one line, the device
reads and echoes it, then the host sends the next).  Serial output is
modelled as a list of emitted strings.  Arduino `String` values are Lean
`String`s; `uint16_t` values are `Nat` reduced modulo 2^16; `int` values
are `Int`.  Float sensor readings appear in the output only through their
`String(...)` decimal renderings, so records carry those renderings.
-/

namespace BME688

/-- Three status mask bits, values from the vendor header `bme68x_defs.h`
(gas measurement valid bit). -/
def BME68X_GASM_VALID_MSK : Nat := 0x20

/-- Heater stability mask bit, from the vendor header `bme68x_defs.h`. -/
def BME68X_HEAT_STAB_MSK : Nat := 0x10

/-- New-data mask bit, from the vendor header `bme68x_defs.h`. -/
def BME68X_NEW_DATA_MSK : Nat := 0x80

/-- Macro `NEW_GAS_MEAS`: bitwise OR of the gas-valid, heat-stable and
new-data masks (source line `#define NEW_GAS_MEAS (BME68X_GASM_VALID_MSK |
BME68X_HEAT_STAB_MSK | BME68X_NEW_DATA_MSK)`). -/
def NEW_GAS_MEAS : Nat := BME68X_GASM_VALID_MSK ||| BME68X_HEAT_STAB_MSK ||| BME68X_NEW_DATA_MSK

/-- Sensor status code for a fatal error; the source comments document
`checkStatus()` as returning -1 on error. -/
def BME68X_ERROR : Int := -1

/-- Sensor status code for a warning; the source comments document
`checkStatus()` as returning 1 on warning. -/
def BME68X_WARNING : Int := 1

/-- Number of sensors in the multi-sensor variant (`#define NUM_SENSORS 2`). -/
def NUM_SENSORS : Nat := 2

/-! ### Arduino string primitives used by the handshake -/

/-- Numeric value of a decimal digit character. -/
def digitVal (c : Char) : Nat := c.toNat - 48

/-- Accumulating decimal fold over leading digit characters; stops at the
first non-digit, exactly as `atol` does after sign handling. -/
def digitsVal : List Char → Nat → Nat
  | [], acc => acc
  | c :: cs, acc => if c.isDigit then digitsVal cs (acc * 10 + digitVal c) else acc

/-- Semantics of Arduino `String.toInt()` (which calls `atol`): skip leading
whitespace, read an optional sign, then fold leading decimal digits; a parse
with no digits yields 0. -/
def atolChars (cs : List Char) : Int :=
  match cs.dropWhile Char.isWhitespace with
  | [] => 0
  | c :: rest =>
    if c = '-' then -(Int.ofNat (digitsVal rest 0))
    else if c = '+' then Int.ofNat (digitsVal rest 0)
    else Int.ofNat (digitsVal (c :: rest) 0)

/-- Arduino `String.toInt()` on a whole line. -/
def toIntArduino (s : String) : Int := atolChars s.data

/-- The C cast `(uint16_t) v` of a `long`: reduction modulo 2^16. -/
def toUInt16c (z : Int) : Nat := (z % 65536).toNat

/-- Semantics of Arduino `String.trim()`: remove leading and trailing
whitespace. -/
def trimChars (cs : List Char) : List Char :=
  ((cs.dropWhile Char.isWhitespace).reverse.dropWhile Char.isWhitespace).reverse

/-! ### Configuration receiver (single-sensor variant `setup()`) -/

/-- Profile arrays during the handshake.  A slot is `none` while the
corresponding C array element is still uninitialised. -/
structure ConfigSt where
  tempProf : List (Option Nat)
  mulProf : List (Option Nat)
deriving Repr, DecidableEq, Inhabited

/-- Parse one configuration line the way the loop body does: `trim`, find
the first comma with `indexOf(",")`, and store only when that index is
strictly positive; the two stored values are the `toInt` parses of the
substrings before and after the comma, cast to `uint16_t`. -/
def parsePair (line : String) : Option (Nat × Nat) :=
  match List.findIdx? (fun c => c = ',') (trimChars line.data) with
  | none => none
  | some k =>
    if 0 < k then
      some (toUInt16c (atolChars ((trimChars line.data).take k)),
        toUInt16c (atolChars ((trimChars line.data).drop (k + 1))))
    else none

/-- Confirmation echo `String(tempProf[i]) + "," + String(mulProf[i]) + ","
+ String(i)` printed after a successful parse. -/
def echoLine (t m i : Nat) : String :=
  Nat.repr t ++ "," ++ Nat.repr m ++ "," ++ Nat.repr i

/-- Body of iteration `i` of the configuration loop on one received line:
on a successful parse both array slots at `i` are written and the echo is
printed; otherwise nothing is written and nothing is printed. -/
def stepConfig (i : Nat) (line : String) (st : ConfigSt) : ConfigSt × List String :=
  match parsePair line with
  | some (t, m) =>
      (⟨st.tempProf.set i (some t), st.mulProf.set i (some m)⟩, [echoLine t m i])
  | none => (st, [])

/-- The `for (int i = 0; i < profileLen; i++)` loop, consuming one line per
iteration; `none` models the device blocking forever on
`while (!Serial.available());` when the host sends too few lines. -/
def runConfigLoop : Nat → Nat → List String → ConfigSt → Option (ConfigSt × List String)
  | _, 0, _, st => some (st, [])
  | _, _ + 1, [], _ => none
  | i, c + 1, line :: rest, st =>
    match runConfigLoop (i + 1) c rest (stepConfig i line st).1 with
    | none => none
    | some (stf, es) => some (stf, (stepConfig i line st).2 ++ es)

/-- Outcome of `setup()`: the received profile length, the two profile
arrays, every line echoed over serial, and the length argument that
`setup()` passes to `bme.setHeaterProf(tempProf, mulProf, sharedHeatrDur,
10)` — the literal 10 from the source. -/
structure SetupResult where
  profileLen : Int
  tempProf : List (Option Nat)
  mulProf : List (Option Nat)
  echoes : List String
  heaterProfLenArg : Nat
deriving Repr, DecidableEq, Inhabited

/-- The serial part of the single-sensor `setup()`: read the profile length
with `readString().toInt()`, echo it, declare the two length-`profileLen`
arrays, run the configuration loop, then call `setHeaterProf` with the
constant length 10. -/
def runSetup (lines : List String) : Option SetupResult :=
  match lines with
  | [] => none
  | l0 :: rest =>
    match runConfigLoop 0 (toIntArduino l0).toNat rest
        ⟨List.replicate (toIntArduino l0).toNat none,
          List.replicate (toIntArduino l0).toNat none⟩ with
    | none => none
    | some (st, echoes) =>
      some ⟨toIntArduino l0, st.tempProf, st.mulProf,
        (toIntArduino l0).repr :: echoes, 10⟩

/-! ### Polling loop (`loop()`) -/

/-- One `bme68xData` record as it reaches the printing code: the float
fields are carried as their `String(...)` decimal renderings, the status
bitmask and gas index as numbers. -/
structure SensorRecord where
  temperature : String
  pressure : String
  humidity : String
  gas_resistance : String
  status : Nat
  gas_index : Nat
deriving Repr, DecidableEq, Inhabited

/-- The single output line printed for a qualifying record: eight
`Serial.print` calls with `", "` separators followed by
`Serial.println(data.gas_index)`, which terminates the line with CRLF. -/
def formatLine (idx uid ms : Nat) (chk : Int) (d : SensorRecord) : String :=
  Nat.repr idx ++ ", " ++ Nat.repr uid ++ ", " ++ Nat.repr ms ++ ", " ++
    d.temperature ++ ", " ++ d.pressure ++ ", " ++ d.humidity ++ ", " ++
    d.gas_resistance ++ ", " ++ chk.repr ++ ", " ++ Nat.repr d.gas_index ++ "\r\n"

/-- The nine field renderings of an output line, in print order. -/
def lineFields (idx uid ms : Nat) (chk : Int) (d : SensorRecord) : List String :=
  [Nat.repr idx, Nat.repr uid, Nat.repr ms, d.temperature, d.pressure,
    d.humidity, d.gas_resistance, chk.repr, Nat.repr d.gas_index]

/-- Lines emitted for one pulled record: exactly the guarded print block
`if (data.status == NEW_GAS_MEAS) { ... }`. -/
def recordOutput (idx uid ms : Nat) (chk : Int) (d : SensorRecord) : List String :=
  if d.status = NEW_GAS_MEAS then [formatLine idx uid ms chk d] else []

/-! ### Health check and device state machine -/

/-- Control state of the firmware: `halted` models the infinite
`for (;;) errLeds();` blink loop, which never returns. -/
inductive RunState
  | running
  | halted
deriving Repr, DecidableEq

/-- Embedding of `checkSensorStatus()` given the value of
`bme.checkStatus()` and of `bme.statusString()`: nonzero status is
inspected; -1 logs the error and halts, 1 logs the warning and continues,
any other value (including 0) does nothing. -/
def checkSensorStatusM (chk : Int) (statusStr : String) : RunState × List String :=
  if chk ≠ 0 then
    if chk = BME68X_ERROR then (RunState.halted, ["Sensor error:" ++ statusStr])
    else if chk = BME68X_WARNING then (RunState.running, ["Sensor Warning:" ++ statusStr])
    else (RunState.running, [])
  else (RunState.running, [])

/-- Environment for one `getData` pull: the record delivered, the `millis()`
reading, and the `checkStatus()` / `statusString()` values observed around
that pull. -/
structure RecEnv where
  d : SensorRecord
  ms : Nat
  chk : Int
  statusStr : String
deriving Repr, DecidableEq, Inhabited

/-- Environment for one sensor in one polling cycle: whether `fetchData()`
reported data, and the successive `getData` pulls of the do-while loop. -/
structure CycleEnv where
  fetchOk : Bool
  recs : List RecEnv
deriving Repr, DecidableEq, Inhabited

/-- The do-while body iterated over the pulled records: print the record if
it qualifies, then run `checkSensorStatus()`, which on error halts the
device inside the loop so later records of the cycle are never pulled. -/
def processRecs (idx uid : Nat) : List RecEnv → RunState × List String
  | [] => (RunState.running, [])
  | r :: rs =>
    match (checkSensorStatusM r.chk r.statusStr).1 with
    | RunState.halted =>
      (RunState.halted,
        recordOutput idx uid r.ms r.chk r.d ++ (checkSensorStatusM r.chk r.statusStr).2)
    | RunState.running =>
      ((processRecs idx uid rs).1,
        recordOutput idx uid r.ms r.chk r.d ++ (checkSensorStatusM r.chk r.statusStr).2 ++
          (processRecs idx uid rs).2)

/-- One sensor's slice of a polling cycle: if `fetchData()` reports nothing
the body is skipped entirely (no print, no health check). -/
def cycle (idx uid : Nat) (env : CycleEnv) : RunState × List String :=
  if env.fetchOk then processRecs idx uid env.recs else (RunState.running, [])

/-- Repeated invocation of the single-sensor `loop()`, one `CycleEnv` per
cycle; a halted device executes nothing and emits nothing. -/
def runDevice (idx uid : Nat) : RunState → List CycleEnv → List String
  | RunState.halted, _ => []
  | RunState.running, [] => []
  | RunState.running, e :: es =>
    (cycle idx uid e).2 ++ runDevice idx uid (cycle idx uid e).1 es

/-- The multi-sensor `loop()` body: `for (i = 0; i < NUM_SENSORS; i++)`
over per-sensor `(uniqueId, CycleEnv)` slices; a halt while serving one
sensor abandons the rest of the cycle. -/
def multiCycleAux (i : Nat) : List (Nat × CycleEnv) → RunState × List String
  | [] => (RunState.running, [])
  | s :: rest =>
    match (cycle i s.1 s.2).1 with
    | RunState.halted => (RunState.halted, (cycle i s.1 s.2).2)
    | RunState.running =>
      ((multiCycleAux (i + 1) rest).1, (cycle i s.1 s.2).2 ++ (multiCycleAux (i + 1) rest).2)

/-- One full multi-sensor polling cycle starting at sensor index 0. -/
def multiCycle (sensors : List (Nat × CycleEnv)) : RunState × List String :=
  multiCycleAux 0 sensors

/-! ### Characterisation of `Nat.repr`, used to relate decimal renderings to
the handshake parser -/

/-- Decimal digit characters of `n`, most significant first. -/
def specDigits (n : Nat) : List Char :=
  if n = 0 then ['0'] else ((Nat.digits 10 n).map Nat.digitChar).reverse

lemma toDigitsCore_ten_eq :
    ∀ (f : Nat), ∀ (n : Nat) (ds : List Char), 0 < f → n < 10 ^ f →
      Nat.toDigitsCore 10 f n ds = specDigits n ++ ds := by
  intro f
  induction f with
  | zero => intro n ds h _; omega
  | succ f ih =>
    intro n ds _ hlt
    rw [show Nat.toDigitsCore 10 (f + 1) n ds =
        (if n / 10 = 0 then Nat.digitChar (n % 10) :: ds
         else Nat.toDigitsCore 10 f (n / 10) (Nat.digitChar (n % 10) :: ds)) from rfl]
    by_cases hdiv : n / 10 = 0
    · rw [if_pos hdiv]
      have hn10 : n < 10 := by omega
      by_cases hn0 : n = 0
      · subst hn0; rfl
      · have hdig : Nat.digits 10 n = [n] := Nat.digits_of_lt 10 n hn0 hn10
        simp [specDigits, hn0, hdig, Nat.mod_eq_of_lt hn10]
    · rw [if_neg hdiv]
      have hf : 0 < f := by
        rcases Nat.eq_zero_or_pos f with hf0 | hf0
        · subst hf0; simp at hlt; omega
        · exact hf0
      have hlt2 : n / 10 < 10 ^ f := by
        rw [Nat.div_lt_iff_lt_mul (by norm_num : (0:Nat) < 10)]
        calc n < 10 ^ (f + 1) := hlt
          _ = 10 ^ f * 10 := pow_succ 10 f
      rw [ih (n / 10) (Nat.digitChar (n % 10) :: ds) hf hlt2]
      have hn0 : n ≠ 0 := by
        intro h; subst h; simp at hdiv
      have hdig : Nat.digits 10 n = n % 10 :: Nat.digits 10 (n / 10) :=
        Nat.digits_def' (by norm_num) (Nat.pos_of_ne_zero hn0)
      simp [specDigits, hn0, hdiv, hdig, List.reverse_cons, List.append_assoc]

lemma repr_data_eq (n : Nat) : (Nat.repr n).data = specDigits n := by
  have h1 : n < 10 ^ (n + 1) :=
    lt_of_lt_of_le (Nat.lt_pow_self (by norm_num) n)
      (Nat.pow_le_pow_right (by norm_num) (Nat.le_succ n))
  have h2 := toDigitsCore_ten_eq (n + 1) n [] (Nat.succ_pos n) h1
  show (Nat.toDigits 10 n).asString.data = _
  rw [show Nat.toDigits 10 n = Nat.toDigitsCore 10 (n + 1) n [] from rfl, h2]
  rw [List.append_nil]
  rfl

lemma digitChar_facts : ∀ d < 10, (Nat.digitChar d).isDigit = true ∧
    (Nat.digitChar d).isWhitespace = false ∧ digitVal (Nat.digitChar d) = d ∧
    Nat.digitChar d ≠ ',' ∧ Nat.digitChar d ≠ '-' ∧ Nat.digitChar d ≠ '+' := by decide

lemma mem_specDigits (n : Nat) :
    ∀ c ∈ specDigits n, ∃ d, d < 10 ∧ c = Nat.digitChar d := by
  intro c hc
  unfold specDigits at hc
  by_cases hn : n = 0
  · rw [if_pos hn] at hc
    simp at hc
    exact ⟨0, by norm_num, by simp [hc]; rfl⟩
  · rw [if_neg hn] at hc
    rw [List.mem_reverse, List.mem_map] at hc
    obtain ⟨d, hd, hcd⟩ := hc
    exact ⟨d, Nat.digits_lt_base (by norm_num) hd, hcd.symm⟩

lemma specDigits_ne_nil (n : Nat) : specDigits n ≠ [] := by
  unfold specDigits
  by_cases hn : n = 0
  · simp [hn]
  · rw [if_neg hn]
    simp [Nat.digits_ne_nil_iff_ne_zero, hn]

/-- Specification-level decimal fold, big-endian. -/
def valFold : List Nat → Nat → Nat
  | [], acc => acc
  | d :: ds, acc => valFold ds (acc * 10 + d)

lemma digitsVal_map (L : List Nat) :
    ∀ acc, (∀ d ∈ L, d < 10) → digitsVal (L.map Nat.digitChar) acc = valFold L acc := by
  induction L with
  | nil => intro acc _; rfl
  | cons d ds ih =>
    intro acc h
    have hd : d < 10 := h d (List.mem_cons_self d ds)
    obtain ⟨h1, _, h3, _⟩ := digitChar_facts d hd
    show digitsVal (Nat.digitChar d :: ds.map Nat.digitChar) acc = _
    rw [digitsVal, if_pos h1, h3]
    exact ih (acc * 10 + d) (fun x hx => h x (List.mem_cons_of_mem d hx))

lemma valFold_append (A : List Nat) (x : Nat) :
    ∀ acc, valFold (A ++ [x]) acc = 10 * valFold A acc + x := by
  induction A with
  | nil => intro acc; simp [valFold]; ring
  | cons a A ih => intro acc; simpa [valFold] using ih (acc * 10 + a)

lemma valFold_reverse (L : List Nat) :
    ∀ acc, valFold L.reverse acc = acc * 10 ^ L.length + Nat.ofDigits 10 L := by
  induction L with
  | nil => intro acc; simp [valFold, Nat.ofDigits_nil]
  | cons x L ih =>
    intro acc
    rw [List.reverse_cons, valFold_append, ih acc, Nat.ofDigits_cons, List.length_cons]
    ring

lemma digitsVal_repr (n : Nat) : digitsVal (Nat.repr n).data 0 = n := by
  rw [repr_data_eq]
  by_cases hn : n = 0
  · subst hn; decide
  · unfold specDigits
    rw [if_neg hn, ← List.map_reverse, digitsVal_map]
    · rw [valFold_reverse]
      simp [Nat.ofDigits_digits]
    · intro d hd
      exact Nat.digits_lt_base (by norm_num) (List.mem_reverse.mp hd)

lemma dropWhile_eq_self_of_none {p : Char → Bool} :
    ∀ cs : List Char, (∀ c ∈ cs, p c = false) → cs.dropWhile p = cs := by
  intro cs h
  cases cs with
  | nil => rfl
  | cons c cs =>
    rw [List.dropWhile_cons, h c (List.mem_cons_self c cs)]
    simp

lemma repr_chars (n : Nat) : ∀ c ∈ (Nat.repr n).data,
    c.isDigit = true ∧ c.isWhitespace = false ∧ c ≠ ',' := by
  intro c hc
  rw [repr_data_eq] at hc
  obtain ⟨d, hd, hcd⟩ := mem_specDigits n c hc
  obtain ⟨h1, h2, _, h4, _⟩ := digitChar_facts d hd
  exact ⟨hcd ▸ h1, hcd ▸ h2, hcd ▸ h4⟩

lemma atol_repr (n : Nat) : atolChars (Nat.repr n).data = Int.ofNat n := by
  have hne : (Nat.repr n).data ≠ [] := by rw [repr_data_eq]; exact specDigits_ne_nil n
  have hall := repr_chars n
  unfold atolChars
  rw [dropWhile_eq_self_of_none _ (fun c hc => (hall c hc).2.1)]
  cases hcs : (Nat.repr n).data with
  | nil => exact absurd hcs hne
  | cons c cs =>
    have hc := hall c (hcs ▸ List.mem_cons_self c cs)
    have hcd : c.isDigit = true := hc.1
    have hcm : c ≠ '-' := by
      intro h; subst h; exact absurd hcd (by decide)
    have hcp : c ≠ '+' := by
      intro h; subst h; exact absurd hcd (by decide)
    show (if c = '-' then -Int.ofNat (digitsVal cs 0)
      else if c = '+' then Int.ofNat (digitsVal cs 0)
      else Int.ofNat (digitsVal (c :: cs) 0)) = Int.ofNat n
    rw [if_neg hcm, if_neg hcp, ← hcs, digitsVal_repr]

lemma findIdx_comma (A B : List Char) (h : ∀ c ∈ A, c ≠ ',') :
    ∀ i, List.findIdx? (fun c => c = ',') (A ++ ',' :: B) i = some (i + A.length) := by
  induction A with
  | nil =>
    intro i
    rw [List.nil_append, List.findIdx?_cons]
    simp
  | cons a A ih =>
    intro i
    rw [List.cons_append, List.findIdx?_cons]
    have ha : a ≠ ',' := h a (List.mem_cons_self a A)
    rw [if_neg (by simpa using ha)]
    rw [ih (fun c hc => h c (List.mem_cons_of_mem a hc)) (i + 1)]
    simp
    omega

lemma trim_no_ws (cs : List Char) (h : ∀ c ∈ cs, c.isWhitespace = false) :
    trimChars cs = cs := by
  unfold trimChars
  rw [dropWhile_eq_self_of_none cs h,
    dropWhile_eq_self_of_none cs.reverse (fun c hc => h c (List.mem_reverse.mp hc)),
    List.reverse_reverse]

lemma concat_line_data (t m : Nat) :
    (Nat.repr t ++ "," ++ Nat.repr m).data = (Nat.repr t).data ++ ',' :: (Nat.repr m).data := by
  rw [String.data_append, String.data_append]
  show (Nat.repr t).data ++ [','] ++ (Nat.repr m).data = _
  rw [List.append_assoc]
  rfl

/-- Key roundtrip: a canonical `"temp,mult"` line parses to the two integers
reduced modulo 2^16. -/
lemma toUInt16c_ofNat (n : Nat) : toUInt16c (Int.ofNat n) = n % 65536 := by
  unfold toUInt16c
  have h : ((n % 65536 : Nat) : Int) = (n : Int) % (65536 : Int) := by push_cast; rfl
  rw [show Int.ofNat n = (n : Int) from rfl, ← h, Int.toNat_natCast]

lemma parsePair_repr (t m : Nat) :
    parsePair (Nat.repr t ++ "," ++ Nat.repr m) = some (t % 65536, m % 65536) := by
  have hA := repr_chars t
  have hB := repr_chars m
  have hws : ∀ c ∈ (Nat.repr t).data ++ ',' :: (Nat.repr m).data,
      c.isWhitespace = false := by
    intro c hc
    rw [List.mem_append] at hc
    rcases hc with hc | hc
    · exact (hA c hc).2.1
    · rw [List.mem_cons] at hc
      rcases hc with hc | hc
      · subst hc; decide
      · exact (hB c hc).2.1
  have hlen : 0 < (Nat.repr t).data.length := by
    have hne : (Nat.repr t).data ≠ [] := by
      rw [repr_data_eq]; exact specDigits_ne_nil t
    cases h : (Nat.repr t).data with
    | nil => exact absurd h hne
    | cons c cs => simp
  unfold parsePair
  rw [concat_line_data, trim_no_ws _ hws,
    findIdx_comma _ _ (fun c hc => (hA c hc).2.2) 0, Nat.zero_add]
  show (if 0 < (Nat.repr t).data.length then
      some (toUInt16c (atolChars (List.take (Nat.repr t).data.length
          ((Nat.repr t).data ++ ',' :: (Nat.repr m).data))),
        toUInt16c (atolChars (List.drop ((Nat.repr t).data.length + 1)
          ((Nat.repr t).data ++ ',' :: (Nat.repr m).data))))
    else none) = some (t % 65536, m % 65536)
  rw [if_pos hlen, List.take_left]
  have hdrop : List.drop ((Nat.repr t).data.length + 1)
      ((Nat.repr t).data ++ ',' :: (Nat.repr m).data) = (Nat.repr m).data := by
    rw [show (Nat.repr t).data ++ ',' :: (Nat.repr m).data =
        ((Nat.repr t).data ++ [',']) ++ (Nat.repr m).data by simp,
      show (Nat.repr t).data.length + 1 = ((Nat.repr t).data ++ [',']).length by simp,
      List.drop_left]
  rw [hdrop, atol_repr, atol_repr, toUInt16c_ofNat, toUInt16c_ofNat]

lemma stepConfig_length (i : Nat) (line : String) (st : ConfigSt) :
    (stepConfig i line st).1.tempProf.length = st.tempProf.length ∧
    (stepConfig i line st).1.mulProf.length = st.mulProf.length := by
  unfold stepConfig
  cases parsePair line with
  | none => exact ⟨rfl, rfl⟩
  | some p => exact ⟨List.length_set _ _ _, List.length_set _ _ _⟩

lemma runConfigLoop_length :
    ∀ (c i : Nat) (lines : List String) (st stf : ConfigSt) (es : List String),
      runConfigLoop i c lines st = some (stf, es) →
      stf.tempProf.length = st.tempProf.length ∧
      stf.mulProf.length = st.mulProf.length := by
  intro c
  induction c with
  | zero =>
    intro i lines st stf es h
    unfold runConfigLoop at h
    rw [Option.some.injEq] at h
    injection h with h1 h2
    subst h1
    exact ⟨rfl, rfl⟩
  | succ c ih =>
    intro i lines st stf es h
    cases lines with
    | nil => exact absurd h (by simp [runConfigLoop])
    | cons line rest =>
      unfold runConfigLoop at h
      cases hrec : runConfigLoop (i + 1) c rest (stepConfig i line st).1 with
      | none => rw [hrec] at h; exact absurd h (by simp)
      | some q =>
        rw [hrec] at h
        rw [Option.some.injEq] at h
        obtain ⟨stq, esq⟩ := q
        have h1 := ih (i + 1) rest (stepConfig i line st).1 stq esq hrec
        have h2 := stepConfig_length i line st
        have hst : stq = stf := by
          have := congrArg Prod.fst h
          simpa using this
        subst hst
        exact ⟨h1.1.trans h2.1, h1.2.trans h2.2⟩

lemma runDevice_halted (idx uid : Nat) (envs : List CycleEnv) :
    runDevice idx uid RunState.halted envs = [] := by
  cases envs <;> rfl

/-! ### The claims -/

/-- C1: In the polling loop, a pulled record whose status bitmask equals
the bitwise OR of the gas-valid, heat-stable and new-data masks triggers
exactly one output line; any other status value (including one with those
three bits set plus any additional bit) triggers zero output lines. -/
theorem claim_C1 (idx uid ms : Nat) (chk : Int) (d : SensorRecord) :
    (d.status = NEW_GAS_MEAS → (recordOutput idx uid ms chk d).length = 1) ∧
    (d.status ≠ NEW_GAS_MEAS → (recordOutput idx uid ms chk d).length = 0) ∧
    (Nat.land d.status NEW_GAS_MEAS = NEW_GAS_MEAS → d.status ≠ NEW_GAS_MEAS →
      (recordOutput idx uid ms chk d).length = 0) := by
  unfold recordOutput
  refine ⟨fun h => by rw [if_pos h]; rfl, fun h => by rw [if_neg h]; rfl,
    fun _ h => by rw [if_neg h]; rfl⟩

theorem claim_C1_witness :
    (recordOutput 0 7 100 0 ⟨"25.00", "99.90", "40.12", "12000.00", 176, 3⟩).length = 1 ∧
    (recordOutput 0 7 100 0 ⟨"25.00", "99.90", "40.12", "12000.00", 177, 3⟩).length = 0 :=
  ⟨(claim_C1 0 7 100 0 ⟨"25.00", "99.90", "40.12", "12000.00", 176, 3⟩).1 (by decide),
    (claim_C1 0 7 100 0 ⟨"25.00", "99.90", "40.12", "12000.00", 177, 3⟩).2.2 (by decide)
      (by decide)⟩

/-- C2: The health check maps an Error status (-1) to the absorbing halted
state after logging, a Warning status (1) to a log message with execution
continuing, and an OK status (0) to no action; a halted device produces no
output lines ever after, a cycle that halts ends the run with only that
cycle's output, and an error observed at one record cuts off the rest of
its cycle with output independent of the remaining records. -/
theorem claim_C2 :
    (∀ (idx uid : Nat) (envs : List CycleEnv),
      runDevice idx uid RunState.halted envs = []) ∧
    (∀ s, checkSensorStatusM BME68X_ERROR s =
      (RunState.halted, ["Sensor error:" ++ s])) ∧
    (∀ s, checkSensorStatusM BME68X_WARNING s =
      (RunState.running, ["Sensor Warning:" ++ s])) ∧
    (∀ s, checkSensorStatusM 0 s = (RunState.running, [])) ∧
    (∀ (idx uid : Nat) (e : CycleEnv) (es : List CycleEnv),
      (cycle idx uid e).1 = RunState.halted →
      runDevice idx uid RunState.running (e :: es) = (cycle idx uid e).2) ∧
    (∀ (idx uid : Nat) (r : RecEnv) (rs : List RecEnv), r.chk = BME68X_ERROR →
      processRecs idx uid (r :: rs) =
        (RunState.halted,
          recordOutput idx uid r.ms r.chk r.d ++ ["Sensor error:" ++ r.statusStr])) := by
  refine ⟨runDevice_halted, fun s => rfl, fun s => rfl, fun s => rfl, ?_, ?_⟩
  · intro idx uid e es h
    show (cycle idx uid e).2 ++ runDevice idx uid (cycle idx uid e).1 es = _
    rw [h, runDevice_halted, List.append_nil]
  · intro idx uid r rs h
    show (match (checkSensorStatusM r.chk r.statusStr).1 with
      | RunState.halted =>
        (RunState.halted,
          recordOutput idx uid r.ms r.chk r.d ++ (checkSensorStatusM r.chk r.statusStr).2)
      | RunState.running =>
        ((processRecs idx uid rs).1,
          recordOutput idx uid r.ms r.chk r.d ++ (checkSensorStatusM r.chk r.statusStr).2 ++
            (processRecs idx uid rs).2)) = _
    rw [h]
    rfl

theorem claim_C2_witness :
    runDevice 0 7 RunState.running
      [⟨true, [⟨⟨"25.00", "99.90", "40.12", "12000.00", 176, 3⟩, 5, -1, "X"⟩]⟩,
        ⟨true, [⟨⟨"25.00", "99.90", "40.12", "12000.00", 176, 4⟩, 6, 0, ""⟩]⟩] =
      (cycle 0 7 ⟨true, [⟨⟨"25.00", "99.90", "40.12", "12000.00", 176, 3⟩, 5, -1, "X"⟩]⟩).2 :=
  claim_C2.2.2.2.2.1 0 7
    ⟨true, [⟨⟨"25.00", "99.90", "40.12", "12000.00", 176, 3⟩, 5, -1, "X"⟩]⟩
    [⟨true, [⟨⟨"25.00", "99.90", "40.12", "12000.00", 176, 4⟩, 6, 0, ""⟩]⟩] (by decide)

/-- C3: In the single-sensor configurable variant, `setup()` always passes
the constant 10 as the profile-length argument of `setHeaterProf`,
regardless of the received length N, while both profile arrays are
declared with exactly N slots; so whenever N differs from 10 the length
handed to the sensor differs from the number of configured pairs. -/
theorem claim_C3 (lines : List String) (r : SetupResult)
    (h : runSetup lines = some r) :
    r.heaterProfLenArg = 10 ∧
    r.tempProf.length = r.profileLen.toNat ∧
    r.mulProf.length = r.profileLen.toNat ∧
    (r.profileLen ≠ 10 → (r.heaterProfLenArg : Int) ≠ r.profileLen) := by
  cases lines with
  | nil => exact absurd h (by simp [runSetup])
  | cons l0 rest =>
    simp only [runSetup] at h
    split at h
    · exact absurd h (by simp)
    · rename_i st echoes hcl
      rw [Option.some.injEq] at h
      obtain rfl := h
      have hlen := runConfigLoop_length _ _ _ _ _ _ hcl
      refine ⟨rfl, ?_, ?_, ?_⟩
      · simpa using hlen.1
      · simpa using hlen.2
      · intro hne hc
        exact hne (by exact_mod_cast hc.symm)

theorem claim_C3_witness :
    ((runSetup ["3", "320,5", "100,2", "200,10"]).getD default).heaterProfLenArg = 10 ∧
    ((runSetup ["3", "320,5", "100,2", "200,10"]).getD default).tempProf.length =
      ((runSetup ["3", "320,5", "100,2", "200,10"]).getD default).profileLen.toNat ∧
    (((runSetup ["3", "320,5", "100,2", "200,10"]).getD
        default).heaterProfLenArg : Int) ≠
      ((runSetup ["3", "320,5", "100,2", "200,10"]).getD default).profileLen := by
  have h : runSetup ["3", "320,5", "100,2", "200,10"] =
      some ⟨3, [some 320, some 100, some 200], [some 5, some 2, some 10],
        ["3", "320,5,0", "100,2,1", "200,10,2"], 10⟩ := by decide
  have hc := claim_C3 ["3", "320,5", "100,2", "200,10"]
    ⟨3, [some 320, some 100, some 200], [some 5, some 2, some 10],
      ["3", "320,5,0", "100,2,1", "200,10,2"], 10⟩ h
  rw [h]
  exact ⟨hc.1, hc.2.1, hc.2.2.2 (by decide)⟩

/-- C4 (counterexample): on the handshake input `"2"`, `"skip"`, `"320,5"`
the malformed line `"skip"` consumes loop iteration 0, so the skipped slot
0 is never written (it stays unwritten) and the next valid line `"320,5"`
is stored at index 1 — not at the index the malformed line was meant to
fill, contradicting the claim. -/
theorem claim_C4_counterexample :
    ((runSetup ["2", "skip", "320,5"]).getD default).tempProf = [none, some 320] ∧
    ((runSetup ["2", "skip", "320,5"]).getD default).mulProf = [none, some 5] ∧
    ((runSetup ["2", "skip", "320,5"]).getD default).tempProf.getD 0 none ≠ some 320 ∧
    runSetup ["2", "skip", "320,5"] ≠ none := by decide

/-- C4 (amended): a received line without a comma is skipped without
writing any array slot, but the loop index still advances: the iteration
consumes the line leaving state and echoes unchanged, so the skipped slot
stays unwritten and the next valid line is stored at the following index. -/
theorem claim_C4 (i c : Nat) (line : String) (rest : List String) (st : ConfigSt)
    (h : parsePair line = none) :
    runConfigLoop i (c + 1) (line :: rest) st = runConfigLoop (i + 1) c rest st := by
  have hstep : stepConfig i line st = (st, []) := by
    unfold stepConfig
    rw [h]
  show (match runConfigLoop (i + 1) c rest (stepConfig i line st).1 with
    | none => none
    | some (stf, es) => some (stf, (stepConfig i line st).2 ++ es)) =
      runConfigLoop (i + 1) c rest st
  simp only [hstep]
  cases hrec : runConfigLoop (i + 1) c rest st with
  | none => rfl
  | some p =>
    obtain ⟨stf, es⟩ := p
    rfl

theorem claim_C4_witness :
    runConfigLoop 0 2 ["skip", "320,5"] ⟨[none, none], [none, none]⟩ =
      runConfigLoop 1 1 ["320,5"] ⟨[none, none], [none, none]⟩ :=
  claim_C4 0 1 "skip" ["320,5"] ⟨[none, none], [none, none]⟩ (by decide)

/-- C5: a received line whose trimmed text contains no comma writes
neither profile array and prints nothing — the configuration state,
including every previously parsed slot, is returned unchanged. -/
theorem claim_C5 (i : Nat) (line : String) (st : ConfigSt)
    (h : List.findIdx? (fun c => c = ',') (trimChars line.data) = none) :
    stepConfig i line st = (st, []) := by
  have hp : parsePair line = none := by
    unfold parsePair
    rw [h]
  unfold stepConfig
  rw [hp]

theorem claim_C5_witness :
    stepConfig 1 "nocomma" ⟨[some 320, none], [some 5, none]⟩ =
      (⟨[some 320, none], [some 5, none]⟩, []) :=
  claim_C5 1 "nocomma" ⟨[some 320, none], [some 5, none]⟩ (by decide)

/-- C6: on the handshake input `"3"`, `"320,5"`, `"100,2"`, `"200,10"` the
receiver stores temperature profile [320, 100, 200] and multiplier profile
[5, 2, 10], echoing the length and each stored pair with its index. -/
theorem claim_C6 :
    runSetup ["3", "320,5", "100,2", "200,10"] =
      some ⟨3, [some 320, some 100, some 200], [some 5, some 2, some 10],
        ["3", "320,5,0", "100,2,1", "200,10,2"], 10⟩ := by decide

/-- C7: every configuration line parsed and stored at index i is echoed as
exactly `"<temp>,<mult>,<i>"` built from the two stored integers and the
index; in particular, a canonical `"<a>,<b>"` line with in-range values is
echoed as itself followed by `,<i>`. -/
theorem claim_C7 (i : Nat) (st : ConfigSt) (line : String) (t m : Nat)
    (h : parsePair line = some (t, m)) :
    (stepConfig i line st).2 = [Nat.repr t ++ "," ++ Nat.repr m ++ "," ++ Nat.repr i] ∧
    (∀ a b : Nat, a < 65536 → b < 65536 →
      (stepConfig i (Nat.repr a ++ "," ++ Nat.repr b) st).2 =
        [Nat.repr a ++ "," ++ Nat.repr b ++ "," ++ Nat.repr i]) := by
  constructor
  · unfold stepConfig
    rw [h]
    rfl
  · intro a b ha hb
    unfold stepConfig
    rw [parsePair_repr, Nat.mod_eq_of_lt ha, Nat.mod_eq_of_lt hb]
    rfl

theorem claim_C7_witness :
    (stepConfig 2 "320,5" ⟨[none, none, none], [none, none, none]⟩).2 = ["320,5,2"] := by
  have hc := (claim_C7 2 ⟨[none, none, none], [none, none, none]⟩ "320,5" 320 5
    (by decide)).1
  rw [hc]
  decide

/-- C8: in the 2-sensor cycle, a sensor whose `fetchData()` reports no new
data contributes nothing and cannot halt, so the other sensor's slice of
the cycle is emitted exactly as its own data dictates, in both orders. -/
theorem claim_C8 (u0 u1 : Nat) (e0 e1 : CycleEnv) :
    (e0.fetchOk = false → (multiCycle [(u0, e0), (u1, e1)]).2 = (cycle 1 u1 e1).2) ∧
    (e1.fetchOk = false → (multiCycle [(u0, e0), (u1, e1)]).2 = (cycle 0 u0 e0).2) := by
  constructor
  · intro h
    have h0 : cycle 0 u0 e0 = (RunState.running, []) := by simp [cycle, h]
    cases hc1 : (cycle 1 u1 e1).1 with
    | halted => simp [multiCycle, multiCycleAux, h0, hc1]
    | running => simp [multiCycle, multiCycleAux, h0, hc1]
  · intro h
    have h1 : cycle 1 u1 e1 = (RunState.running, []) := by simp [cycle, h]
    cases hc0 : (cycle 0 u0 e0).1 with
    | halted => simp [multiCycle, multiCycleAux, hc0, h1]
    | running => simp [multiCycle, multiCycleAux, hc0, h1]

theorem claim_C8_witness :
    (multiCycle [(11, ⟨false, []⟩),
      (22, ⟨true, [⟨⟨"25.00", "99.90", "40.12", "12000.00", 176, 3⟩, 9, 0, ""⟩]⟩)]).2 =
      (cycle 1 22 ⟨true, [⟨⟨"25.00", "99.90", "40.12", "12000.00", 176, 3⟩, 9, 0, ""⟩]⟩).2 :=
  (claim_C8 11 22 ⟨false, []⟩
    ⟨true, [⟨⟨"25.00", "99.90", "40.12", "12000.00", 176, 3⟩, 9, 0, ""⟩]⟩).1 rfl

/-- C9: every emitted data line is the comma-separated join of exactly nine
fields in the order sensor index, unique id, millis, temperature, pressure,
humidity, gas resistance, status code, gas index, and is newline-terminated. -/
theorem claim_C9 (idx uid ms : Nat) (chk : Int) (d : SensorRecord) :
    formatLine idx uid ms chk d =
      String.intercalate ", " (lineFields idx uid ms chk d) ++ "\r\n" ∧
    (lineFields idx uid ms chk d).length = 9 ∧
    (formatLine idx uid ms chk d).data.reverse.head? = some '\n' := by
  refine ⟨?_, rfl, ?_⟩
  · unfold formatLine lineFields
    simp [String.intercalate, String.intercalate.go, String.append_assoc]
  · unfold formatLine
    rw [String.data_append]
    simp

/-- C10: a canonical `"<t>,<m>"` configuration line stores both values
reduced modulo 2^16 (the `(uint16_t)` casts), for any magnitude of t and
m; in particular an input temperature of 70000 is stored as 4464. -/
theorem claim_C10 (t m i : Nat) (st : ConfigSt) :
    stepConfig i (Nat.repr t ++ "," ++ Nat.repr m) st =
      (⟨st.tempProf.set i (some (t % 65536)), st.mulProf.set i (some (m % 65536))⟩,
        [echoLine (t % 65536) (m % 65536) i]) ∧
    (stepConfig 0 "70000,5" ⟨[none], [none]⟩).1.tempProf = [some 4464] := by
  refine ⟨?_, by decide⟩
  unfold stepConfig
  rw [parsePair_repr]

end BME688
